import Mathlib

/-!
Shallow embedding of the query-orchestration pipeline of the agentic-rag
repository: the query decomposer, the LLM classifier, the router engine,
the sub-agent executor, the result aggregator and the master agent.

Conventions of the embedding:
* JavaScript numbers are modelled as exact rationals (`ℚ`); wall-clock
  durations as `ℕ`.
* A call to the language model (`Settings.llm.complete`) is modelled as an
  `Except String …` value passed in by the caller: `.error e` models the
  promise rejecting with message `e`, `.ok r` models a textual response.
* The textual response of the oracle is modelled after the parsing code:
  the regex match / `JSON.parse` step either fails (`unparsable`) or
  produces a record of optional fields, exactly the fields the source
  reads off the parsed object.
* JavaScript falsiness of the optional fields (`x || d`) is modelled by
  `jsOrStr` / `jsOrNum`: `undefined`, the empty string and the number `0`
  select the default.
-/

namespace AgenticRag

/-- JS `x || d` for an optional string field: `undefined` and `""` are falsy. -/
def jsOrStr (o : Option String) (d : String) : String :=
  match o with
  | none => d
  | some s => if s = "" then d else s

/-- JS `x || d` for an optional numeric field: `undefined` and `0` are falsy. -/
def jsOrNum (o : Option ℚ) (d : ℚ) : ℚ :=
  match o with
  | none => d
  | some x => if x = 0 then d else x

/-- JS falsiness test of an optional string (`!x`). -/
def jsFalsyStr (o : Option String) : Bool :=
  match o with
  | none => true
  | some s => s = ""

/-- JS falsiness test of an optional number (`!x`). -/
def jsFalsyNum (o : Option ℚ) : Bool :=
  match o with
  | none => true
  | some x => x = 0

/-- JS `Math.min` on two numbers. -/
def mathMin (a b : ℚ) : ℚ := if a ≤ b then a else b

/-- JS `Math.max` on two numbers. -/
def mathMax (a b : ℚ) : ℚ := if a ≤ b then b else a

/-- The closed set of sub-query kinds (`SubQuery['type']` in `queryDecomposer.ts`). -/
inductive QueryType where
  | knowledge_query
  | math_calculation
  | weather_query
deriving DecidableEq, Repr

/-- `SubQuery` of `queryDecomposer.ts`. -/
structure SubQuery where
  id : String
  query : String
  type : QueryType
  priority : ℚ
  confidence : ℚ
  reasoning : String
deriving DecidableEq, Repr

/-- `SubQueryResult` of `subAgentExecutor.ts`; `error` and `executionTime`
are optional fields in the source interface. -/
structure SubQueryResult where
  id : String
  query : String
  type : QueryType
  response : String
  success : Bool
  error : Option String
  executionTime : Option ℕ
deriving DecidableEq, Repr

/-- `QueryDecompositionResult` of `queryDecomposer.ts`. -/
structure QueryDecompositionResult where
  originalQuery : String
  subQueries : List SubQuery
  hasMultipleIntents : Bool
  reasoning : String
deriving DecidableEq, Repr

/-- The comparator `(a, b) => a.priority - b.priority` used by the JS
stable `Array.prototype.sort`. -/
def priorityLE (a b : SubQuery) : Prop := a.priority ≤ b.priority

instance : DecidableRel priorityLE :=
  fun a b => inferInstanceAs (Decidable (a.priority ≤ b.priority))

/-- The stable sort `[...xs].sort((a, b) => a.priority - b.priority)`
(ES2019 `sort` is stable; insertion sort with `≤` is the same stable sort). -/
def sortByPriority (l : List SubQuery) : List SubQuery :=
  List.insertionSort priorityLE l

/-! ### Query decomposer (`queryDecomposer.ts`) -/

/-- The optional fields the decomposer reads off one element of the parsed
`subQueries` array (interface `ParsedSubQuery`). -/
structure ParsedSubQuery where
  id : Option String
  query : Option String
  type : Option QueryType
  priority : Option ℚ
  confidence : Option ℚ
  reasoning : Option String
deriving DecidableEq, Repr

/-- The fields the decomposer reads off the parsed top-level JSON object. -/
structure DecompParsed where
  hasMultipleIntents : Option Bool
  subQueries : Option (List ParsedSubQuery)
  reasoning : Option String
deriving DecidableEq, Repr

/-- A decomposition oracle response after the regex-match / `JSON.parse`
step: either no parseable JSON object, or a parsed record. -/
inductive DecompResponse where
  | unparsable
  | parsed (p : DecompParsed)
deriving DecidableEq, Repr

/-- The validation steps of `parseDecompositionResult` that run inside its
`try` block: the regex match and the required-field checks
(`hasMultipleIntents === undefined`, `!subQueries`, `!Array.isArray`). -/
def parseDecompositionCore : DecompResponse → Except String (Bool × List ParsedSubQuery × Option String)
  | .unparsable => .error "LLM响应中未找到有效的JSON格式"
  | .parsed p =>
    match p.hasMultipleIntents, p.subQueries with
    | some b, some l => .ok (b, l, p.reasoning)
    | _, _ => .error "LLM响应缺少必需字段"

/-- The element-wise map of `parseDecompositionResult` turning a
`ParsedSubQuery` at position `index` into a `SubQuery`, applying the
JS `||` defaults field by field (`now` models `Date.now()` in the
synthetic id). -/
def buildSubQuery (originalQuery : String) (now : ℕ) (index : ℕ) (sq : ParsedSubQuery) : SubQuery :=
  { id := jsOrStr sq.id ("sub-" ++ toString now ++ "-" ++ toString index)
    query := jsOrStr sq.query originalQuery
    type := sq.type.getD QueryType.knowledge_query
    priority := jsOrNum sq.priority (mkRat (index + 1) 1)
    confidence := mathMax 0 (mathMin 1 (jsOrNum sq.confidence (mkRat 4 5)))
    reasoning := jsOrStr sq.reasoning ("子查询" ++ toString (index + 1)) }

/-- `QueryDecomposer.parseDecompositionResult`: validate, apply per-field
defaults, sort by priority; on any parse error return the degraded
single-element decomposition. -/
def parseDecompositionResult (resp : DecompResponse) (originalQuery : String) (now : ℕ)
    : QueryDecompositionResult :=
  match parseDecompositionCore resp with
  | .ok (hmi, l, reasoning) =>
    { originalQuery := originalQuery
      subQueries := sortByPriority (l.enum.map (fun p => buildSubQuery originalQuery now p.1 p.2))
      hasMultipleIntents := hmi
      reasoning := jsOrStr reasoning "查询分解完成" }
  | .error e =>
    { originalQuery := originalQuery
      subQueries := [⟨"fallback-1", originalQuery, QueryType.knowledge_query, 1, mkRat 1 2,
        "分解失败，作为单一查询处理"⟩]
      hasMultipleIntents := false
      reasoning := "查询分解解析失败，使用降级处理: " ++ e }

/-- `QueryDecomposer.decomposeQuery`: call the oracle (`llm` models the
outcome of `Settings.llm.complete`); on rejection return the degraded
single-element decomposition, otherwise parse. -/
def decomposeQuery (llm : Except String DecompResponse) (query : String) (now : ℕ)
    : QueryDecompositionResult :=
  match llm with
  | .error _ =>
    { originalQuery := query
      subQueries := [⟨"fallback-1", query, QueryType.knowledge_query, 1, mkRat 1 2,
        "查询分解失败，作为单一知识查询处理"⟩]
      hasMultipleIntents := false
      reasoning := "查询分解服务异常，使用降级处理" }
  | .ok resp => parseDecompositionResult resp query now

/-! ### LLM classifier (`llmClassifier.ts`) -/

/-- The registered dataset keys (`DATASET_CONFIGS` in `config.ts`). -/
inductive DatasetKey where
  | machine_learning
  | price_index_statistics
deriving DecidableEq, Repr

/-- `LLMClassificationResult` of `llmClassifier.ts`. -/
structure LLMClassificationResult where
  dataset : DatasetKey
  confidence : ℚ
  reasoning : String
deriving DecidableEq, Repr

/-- The optional fields `parseClassificationResult` reads off the parsed
JSON object. -/
structure ClsParsed where
  dataset : Option String
  confidence : Option ℚ
  reasoning : Option String
deriving DecidableEq, Repr

/-- A classifier oracle response after the regex-match / `JSON.parse` step. -/
inductive ClsResponse where
  | unparsable
  | parsed (p : ClsParsed)
deriving DecidableEq, Repr

/-- Key lookup in `DATASET_CONFIGS` (`key in DATASET_CONFIGS` / `DATASET_CONFIGS[key]`). -/
def datasetOfKey : String → Option DatasetKey
  | "machine_learning" => some DatasetKey.machine_learning
  | "price_index_statistics" => some DatasetKey.price_index_statistics
  | _ => none

/-- The validation steps of `LLMClassifier.parseClassificationResult` that
run inside its `try` block: regex match, falsy required-field check,
dataset-key check, confidence-range check. -/
def parseClassificationCore : ClsResponse → Except String LLMClassificationResult
  | .unparsable => .error "LLM响应中未找到有效的JSON格式"
  | .parsed p =>
    if jsFalsyStr p.dataset || jsFalsyNum p.confidence || jsFalsyStr p.reasoning then
      .error "LLM响应缺少必需字段"
    else
      match datasetOfKey (p.dataset.getD "") with
      | none => .error ("无效的数据集: " ++ p.dataset.getD "")
      | some ds =>
        let confidence := p.confidence.getD 0
        if confidence < 0 ∨ 1 < confidence then
          .error "无效的置信度"
        else
          .ok ⟨ds, confidence, p.reasoning.getD ""⟩

/-- `LLMClassifier.parseClassificationResult`: the `catch` branch turns any
validation error into the default classification result. -/
def parseClassificationResult (resp : ClsResponse) : LLMClassificationResult :=
  match parseClassificationCore resp with
  | .ok r => r
  | .error e =>
    ⟨DatasetKey.price_index_statistics, mkRat 3 10, "LLM响应解析失败，使用默认数据集: " ++ e⟩

/-- `LLMClassifier.classify`: throws only when the oracle call itself
rejects; a received response is always run through
`parseClassificationResult`. -/
def classify (llm : Except String ClsResponse) : Except String LLMClassificationResult :=
  match llm with
  | .error e => .error ("LLM分类服务异常: " ++ e)
  | .ok resp => .ok (parseClassificationResult resp)

/-! ### Router engine (`routerEngine.ts`) -/

/-- `DatasetSelection` of `routerEngine.ts`. -/
structure DatasetSelection where
  dataset : DatasetKey
  confidence : ℚ
  reasoning : String
deriving DecidableEq, Repr

/-- `RouterResponse` of `routerEngine.ts`. -/
structure RouterResponse where
  response : String
  selectedDataset : String
  routingReason : String
  confidence : ℚ
deriving DecidableEq, Repr

/-- Substring containment on character lists (JS `String.prototype.includes`). -/
def charsContain (s sub : List Char) : Bool :=
  (List.range (s.length + 1)).any (fun i => sub.isPrefixOf (s.drop i))

/-- JS `s.includes(sub)`. -/
def containsSub (s sub : String) : Bool :=
  charsContain s.data sub.data

/-- JS `toLowerCase` as a character map (ASCII case mapping; the CJK
characters of the keyword lists are case-invariant in both semantics). -/
def toLowerStr (s : String) : String := ⟨s.data.map Char.toLower⟩

/-- The machine-learning keyword list of `RouterEngine.selectBestDataset`. -/
def mlKeywords : List String := [
  "机器学习", "深度学习", "人工智能", "算法", "模型", "训练",
  "神经网络", "卷积", "循环", "递归", "前馈",
  "dev set", "test set", "validation set", "training set",
  "训练集", "验证集", "测试集", "开发集", "数据集划分",
  "数据集", "数据分割", "数据切分", "训练数据", "测试数据",
  "梯度下降", "反向传播", "优化", "损失函数", "激活函数",
  "回归", "分类", "聚类", "降维", "特征", "决策树",
  "支持向量机", "随机森林", "朴素贝叶斯", "逻辑回归",
  "准确率", "精确率", "召回率", "F1分数", "F1 score", "AUC", "ROC",
  "混淆矩阵", "模型评估", "性能评估", "评估指标", "评估方法",
  "precision", "recall", "accuracy", "f1", "confusion matrix",
  "数据预处理", "特征工程", "数据清洗", "数据增强",
  "特征选择", "数据标注", "数据归一化", "数据标准化",
  "data preprocessing", "feature engineering", "data cleaning",
  "模型训练", "模型选择", "超参数", "调参", "优化器",
  "学习率", "批量大小", "epoch", "batch size", "learning rate",
  "模型部署", "模型优化", "模型调试",
  "监督学习", "无监督学习", "强化学习", "半监督学习",
  "supervised learning", "unsupervised learning", "reinforcement learning",
  "过拟合", "欠拟合", "交叉验证", "正则化", "归一化",
  "批量", "梯度", "权重", "偏置", "激活",
  "machine learning", "deep learning", "neural network", "algorithm",
  "model", "training", "gradient descent", "backpropagation",
  "overfitting", "underfitting", "cross validation", "regularization",
  "classification", "regression", "clustering", "feature",
  "optimization", "loss function", "activation function"]

/-- The price-index keyword list of `RouterEngine.selectBestDataset`. -/
def priceIndexKeywords : List String := [
  "价格指数", "物价", "价格", "指数", "统计",
  "CPI", "PPI", "消费价格", "生产价格", "消费者价格",
  "居民消费", "工业生产", "农产品", "食品",
  "通胀", "通缩", "通胀率", "增长率", "同比", "环比",
  "经济", "宏观", "微观", "市场", "商品",
  "月度", "季度", "年度", "最近", "过去", "趋势",
  "一个月", "三个月", "半年", "一年",
  "price index", "inflation", "deflation", "consumer price",
  "producer price", "economic", "market", "commodity"]

/-- `RouterEngine.calculateKeywordScore`: a fixed weight per matching
keyword (longer keywords weigh more), a bonus for multiple matches,
capped at `1.0`. -/
def calculateKeywordScore (query : String) (keywords : List String) : ℚ :=
  let matched := keywords.filter (fun keyword => containsSub query (toLowerStr keyword))
  let score : ℚ := (matched.map (fun keyword => if 5 < keyword.length then mkRat 15 100 else mkRat 1 10)).sum
  let matchCount := matched.length
  let score := if 1 < matchCount then score + mkRat matchCount 1 * mkRat 5 100 else score
  mathMin score 1

/-- Rendering of a rational for the score-citing rationale (stands in for
the JS `toFixed(2)` formatting; only the surrounding text matters to the
properties proved here). -/
def scoreText (q : ℚ) : String := toString q.num ++ "/" ++ toString q.den

/-- `RouterEngine.selectBestDataset`: keyword argmax over the two
registered datasets, threshold `0.6`, then the LLM classifier, then the
default dataset with confidence `0.4` when the classifier throws. -/
def selectBestDataset (query : String) (llm : Except String ClsResponse) : DatasetSelection :=
  let lowerQuery := toLowerStr query
  let mlScore := calculateKeywordScore lowerQuery mlKeywords
  let priceScore := calculateKeywordScore lowerQuery priceIndexKeywords
  let bestScore := mathMax mlScore priceScore
  let bestDataset := if priceScore < mlScore then DatasetKey.machine_learning
    else DatasetKey.price_index_statistics
  if mkRat 6 10 < bestScore then
    ⟨bestDataset, mathMin bestScore (mkRat 95 100), "关键词匹配 (得分: " ++ scoreText bestScore ++ ")"⟩
  else
    match classify llm with
    | .ok llmResult =>
      ⟨llmResult.dataset, llmResult.confidence, "LLM智能分类: " ++ llmResult.reasoning⟩
    | .error e =>
      ⟨DatasetKey.price_index_statistics, mkRat 4 10, "LLM服务异常，使用默认数据集: " ++ e⟩

/-- The `selection` local of `RouterEngine.routeQuery`: a truthy suggested
dataset that is a key of `DATASET_CONFIGS` is used directly with
confidence `0.9`, otherwise `selectBestDataset` decides. -/
def routeSelection (query : String) (suggestedDataset : Option String)
    (llm : Except String ClsResponse) : DatasetSelection :=
  match suggestedDataset with
  | some s =>
    if s ≠ "" then
      match datasetOfKey s with
      | some ds => ⟨ds, mkRat 9 10, "Master Agent 建议使用 " ++ s ++ " 数据集"⟩
      | none => selectBestDataset query llm
    else selectBestDataset query llm
  | none => selectBestDataset query llm

/-- `DATASET_CONFIGS[…].description` of `config.ts`. -/
def datasetDescription : DatasetKey → String
  | DatasetKey.machine_learning => "机器学习课程内容"
  | DatasetKey.price_index_statistics => "价格指数统计"

/-- `RouterEngine.executeQuery`: the retrieval call (`retrieve` models the
query engine of the selected dataset) with any retrieval error wrapped as
a textual failure message. -/
def executeQuery (retrieve : String → DatasetKey → Except String String)
    (query : String) (dataset : DatasetKey) : String :=
  match retrieve query dataset with
  | .ok r => r
  | .error e => "❌ 查询失败：" ++ e

/-- `RouterEngine.routeQuery`: select a dataset, run the retrieval, wrap
the selection data into a `RouterResponse`. -/
def routeQuery (query : String) (suggestedDataset : Option String)
    (llm : Except String ClsResponse)
    (retrieve : String → DatasetKey → Except String String) : RouterResponse :=
  let selection := routeSelection query suggestedDataset llm
  { response := executeQuery retrieve query selection.dataset
    selectedDataset := datasetDescription selection.dataset
    routingReason := selection.reasoning
    confidence := selection.confidence }

/-! ### Sub-agent executor (`subAgentExecutor.ts`) -/

/-- The `switch (subQuery.type)` dispatch of `SubAgentExecutor.executeSubQuery`.
The three handlers are passed in (they wrap external services); a handler
outcome `.error e` models the handler throwing with message `e`. -/
def dispatchHandler (handleK handleM handleW : String → Except String String)
    (sq : SubQuery) : Except String String :=
  match sq.type with
  | QueryType.knowledge_query => handleK sq.query
  | QueryType.math_calculation => handleM sq.query
  | QueryType.weather_query => handleW sq.query

/-- `SubAgentExecutor.executeSubQuery`: the per-task `try`/`catch` boundary
converting a handler throw into a failed `SubQueryResult` with empty
response; `elapsed` models the measured `Date.now() - startTime`. -/
def executeSubQuery (handleK handleM handleW : String → Except String String)
    (elapsed : ℕ) (sq : SubQuery) : SubQueryResult :=
  match dispatchHandler handleK handleM handleW sq with
  | .ok response =>
    { id := sq.id, query := sq.query, type := sq.type, response := response
      success := true, error := none, executionTime := some elapsed }
  | .error e =>
    { id := sq.id, query := sq.query, type := sq.type, response := ""
      success := false, error := some e, executionTime := some elapsed }

/-- `SubAgentExecutor.executeSubQueries`: early return on the empty list,
then a stable sort by priority followed by the fan-out over the sorted
list (`Promise.all` keeps the order of the mapped array, not completion
order). -/
def executeSubQueries (handleK handleM handleW : String → Except String String)
    (elapsed : SubQuery → ℕ) (subQueries : List SubQuery) : List SubQueryResult :=
  if subQueries.isEmpty then []
  else (sortByPriority subQueries).map
    (fun sq => executeSubQuery handleK handleM handleW (elapsed sq) sq)

/-! ### Result aggregator (`resultAggregator.ts`) -/

/-- The execution summary of `AggregatedResult` in `resultAggregator.ts`. -/
structure ExecutionSummary where
  totalSubQueries : ℕ
  successfulQueries : ℕ
  failedQueries : ℕ
  totalExecutionTime : ℕ
deriving DecidableEq, Repr

/-- `AggregatedResult` of `resultAggregator.ts`. -/
structure AggregatedResult where
  originalQuery : String
  finalResponse : String
  subResults : List SubQueryResult
  aggregationReasoning : String
  executionSummary : ExecutionSummary
deriving DecidableEq, Repr

/-- `ResultAggregator.calculateExecutionSummary`: counts and the duration
sum, a pure reduction of the result list (`executionTime || 0`). -/
def calculateExecutionSummary (subResults : List SubQueryResult) : ExecutionSummary :=
  { totalSubQueries := subResults.length
    successfulQueries := (subResults.filter (fun r => r.success)).length
    failedQueries := (subResults.filter (fun r => !r.success)).length
    totalExecutionTime := (subResults.map (fun r => r.executionTime.getD 0)).sum }

/-- The optional fields `parseAggregationResult` reads off the parsed JSON
object. -/
structure AggParsed where
  response : Option String
  reasoning : Option String
deriving DecidableEq, Repr

/-- An aggregation oracle response after the regex-match / `JSON.parse` step. -/
inductive AggResponse where
  | unparsable
  | parsed (p : AggParsed)
deriving DecidableEq, Repr

/-- `ResultAggregator.parseAggregationResult`: regex match and the falsy
`response`-field check; throws (models the rethrow in its `catch`) on
violation. -/
def parseAggregationResult : AggResponse → Except String (String × String)
  | .unparsable => .error "解析聚合结果失败: LLM响应中未找到有效的JSON格式"
  | .parsed p =>
    if jsFalsyStr p.response then
      .error "解析聚合结果失败: LLM响应缺少必需的response字段"
    else
      .ok (p.response.getD "", jsOrStr p.reasoning "聚合完成")

/-- The first block of `simpleFallbackAggregation`: the `response` local
after the successful-results branch (single result passed through, several
joined with blank lines, none gives the empty string). -/
def fallbackSuccessText (successfulResults : List SubQueryResult) : String :=
  if 0 < successfulResults.length then
    if successfulResults.length = 1 then
      (successfulResults.map (fun r => r.response)).headD ""
    else
      String.intercalate "\n\n" (successfulResults.map (fun r => r.response))
  else ""

/-- The second block of `simpleFallbackAggregation`: append the
partial-failure line (with a blank-line separator when something precedes
it) when failures exist. -/
def fallbackWithFailures (response : String) (failedResults : List SubQueryResult) : String :=
  if 0 < failedResults.length then
    (if response ≠ "" then response ++ "\n\n" else response) ++
      ("❌ 部分查询失败: " ++ String.intercalate ", " (failedResults.map (fun r => r.error.getD "")))
  else response

/-- `ResultAggregator.simpleFallbackAggregation`: join the successful
responses with blank lines, append a partial-failure line when failures
exist, and fall back to the fixed all-failed message only when the built
string is empty. -/
def simpleFallbackAggregation (subResults : List SubQueryResult) : String :=
  let response := fallbackWithFailures
    (fallbackSuccessText (subResults.filter (fun r => r.success)))
    (subResults.filter (fun r => !r.success))
  if response = "" then "❌ 所有查询都失败了" else response

/-- `ResultAggregator.aggregateWithLLM`: the oracle call followed by
`parseAggregationResult`; fails when either fails. -/
def aggregateWithLLM (llm : Except String AggResponse) : Except String (String × String) :=
  match llm with
  | .error e => .error e
  | .ok resp => parseAggregationResult resp

/-- `ResultAggregator.aggregateResults`: single-result passthrough,
otherwise the LLM synthesis with the deterministic fallback in its
`catch`; the execution summary is computed the same way in every branch. -/
def aggregateResults (llm : Except String AggResponse) (originalQuery : String)
    (subResults : List SubQueryResult) : AggregatedResult :=
  match subResults with
  | [singleResult] =>
    { originalQuery := originalQuery
      finalResponse := if singleResult.success then singleResult.response
        else "❌ 查询失败: " ++ singleResult.error.getD "undefined"
      subResults := subResults
      aggregationReasoning := "单一查询，无需聚合"
      executionSummary := calculateExecutionSummary subResults }
  | _ =>
    match aggregateWithLLM llm with
    | .ok (response, reasoning) =>
      { originalQuery := originalQuery
        finalResponse := response
        subResults := subResults
        aggregationReasoning := reasoning
        executionSummary := calculateExecutionSummary subResults }
    | .error e =>
      { originalQuery := originalQuery
        finalResponse := simpleFallbackAggregation subResults
        subResults := subResults
        aggregationReasoning := "LLM聚合失败，使用简单拼接: " ++ e
        executionSummary := calculateExecutionSummary subResults }

/-! ### Master agent (`masterAgent.ts`, multi-agent version) -/

/-- The backward-compatible `analysis` field of `MasterAgentResponse`. -/
structure MasterAgentAnalysis where
  queryType : String
  confidence : ℚ
  reasoning : String
deriving DecidableEq, Repr

/-- `MasterAgentResponse` of `masterAgent.ts`. -/
structure MasterAgentResponse where
  query : String
  response : String
  decomposition : QueryDecompositionResult
  subResults : List SubQueryResult
  aggregation : AggregatedResult
  executionSummary : ExecutionSummary
  analysis : MasterAgentAnalysis
  selectedDataset : Option String
  routingReason : Option String
deriving DecidableEq, Repr

/-- `MasterAgent.calculateOverallConfidence`: the mean of the sub-query
confidences, `0` on the empty list. -/
def calculateOverallConfidence (subQueries : List SubQuery) : ℚ :=
  if subQueries.length = 0 then 0
  else (subQueries.map (fun sq => sq.confidence)).sum / (subQueries.length : ℚ)

/-- The degraded response built in the `catch` branch of
`MasterAgent.processQuery`. -/
def degradedResponse (query e : String) : MasterAgentResponse :=
  let errorResponse := "❌ 查询处理失败: " ++ e
  { query := query
    response := errorResponse
    decomposition := ⟨query, [], false, "查询处理失败"⟩
    subResults := []
    aggregation := ⟨query, errorResponse, [], "查询处理失败", ⟨0, 0, 0, 0⟩⟩
    executionSummary := ⟨0, 0, 0, 0⟩
    analysis := ⟨"single_intent", 0, "查询处理失败"⟩
    selectedDataset := none
    routingReason := none }

/-- `MasterAgent.processQuery`: decompose, execute, aggregate inside one
`try`; each stage is passed in as an `Except`-valued function so that an
unexpected exception at any stage (`.error e`) reaches the single `catch`,
which builds the degraded response instead of rethrowing. -/
def processQuery (query : String)
    (decompose : String → Except String QueryDecompositionResult)
    (execute : List SubQuery → Except String (List SubQueryResult))
    (aggregate : String → List SubQueryResult → Except String AggregatedResult)
    : MasterAgentResponse :=
  match decompose query with
  | .error e => degradedResponse query e
  | .ok decomposition =>
    match execute decomposition.subQueries with
    | .error e => degradedResponse query e
    | .ok subResults =>
      match aggregate query subResults with
      | .error e => degradedResponse query e
      | .ok aggregation =>
        let knowledgeQueries := subResults.filter
          (fun r => decide (r.type = QueryType.knowledge_query) && r.success)
        { query := query
          response := aggregation.finalResponse
          decomposition := decomposition
          subResults := subResults
          aggregation := aggregation
          executionSummary := aggregation.executionSummary
          analysis :=
            ⟨if decomposition.hasMultipleIntents then "multi_intent" else "single_intent",
             calculateOverallConfidence decomposition.subQueries,
             decomposition.reasoning⟩
          selectedDataset := if 0 < knowledgeQueries.length then some "智能路由选择" else none
          routingReason := if 0 < knowledgeQueries.length then some "通过查询分解和智能路由选择" else none }

/-! ### Helper lemmas -/

/-- A string starting with a non-empty prefix is non-empty. -/
theorem append_ne_empty_left (s t : String) (h : s.data ≠ []) : s ++ t ≠ "" := by
  intro he
  apply h
  have hd := congrArg String.data he
  rw [String.data_append] at hd
  exact (List.append_eq_nil.mp hd).1

/-- `executeSubQueries` is the map of `executeSubQuery` over the
priority-sorted input (also on the empty list). -/
theorem executeSubQueries_eq (hK hM hW : String → Except String String)
    (elapsed : SubQuery → ℕ) (l : List SubQuery) :
    executeSubQueries hK hM hW elapsed l
      = (sortByPriority l).map (fun sq => executeSubQuery hK hM hW (elapsed sq) sq) := by
  cases l with
  | nil => rfl
  | cons a t => rfl

/-- `executeSubQuery` keeps the identifying fields of its sub-request and
succeeds exactly when the dispatched handler does. -/
theorem executeSubQuery_fields (hK hM hW : String → Except String String)
    (d : ℕ) (sq : SubQuery) :
    (executeSubQuery hK hM hW d sq).id = sq.id ∧
    (executeSubQuery hK hM hW d sq).query = sq.query ∧
    (executeSubQuery hK hM hW d sq).type = sq.type ∧
    (executeSubQuery hK hM hW d sq).success = (dispatchHandler hK hM hW sq).isOk := by
  unfold executeSubQuery
  cases h : dispatchHandler hK hM hW sq <;> simp [Except.isOk, Except.toBool]

/-- The clamp `Math.max(0, Math.min(1, x))` lands in `[0, 1]`. -/
theorem clamp_mem_unit (x : ℚ) : 0 ≤ mathMax 0 (mathMin 1 x) ∧ mathMax 0 (mathMin 1 x) ≤ 1 := by
  unfold mathMax mathMin
  split_ifs <;> constructor <;> linarith

/-! ### Claims -/

/-- C6: for every sub-result list, the computed summary satisfies
`succeeded + failed = total`, `total` is the length of the list and
`totalDurationMillis` is the sum of the recorded durations; and
`aggregateResults` computes the summary by this same pure reduction in every
one of its branches. -/
theorem summary_invariants (subResults : List SubQueryResult) :
    (calculateExecutionSummary subResults).successfulQueries
        + (calculateExecutionSummary subResults).failedQueries
      = (calculateExecutionSummary subResults).totalSubQueries ∧
    (calculateExecutionSummary subResults).totalSubQueries = subResults.length ∧
    (calculateExecutionSummary subResults).totalExecutionTime
      = (subResults.map (fun r => r.executionTime.getD 0)).sum ∧
    ∀ (llm : Except String AggResponse) (originalQuery : String),
      (aggregateResults llm originalQuery subResults).executionSummary
        = calculateExecutionSummary subResults := by
  refine ⟨?_, rfl, rfl, ?_⟩
  · exact (subResults.length_eq_length_filter_add (fun r => r.success)).symm
  · intro llm originalQuery
    rcases subResults with _ | ⟨a, _ | ⟨b, t⟩⟩
    · rcases h : aggregateWithLLM llm with e | ⟨r, rs⟩ <;> simp [aggregateResults, h]
    · rfl
    · rcases h : aggregateWithLLM llm with e | ⟨r, rs⟩ <;> simp [aggregateResults, h]

/-- C1: `processQuery` never throws; when any internal stage throws an
unexpected exception, the returned object has an empty decomposition, an
empty sub-result list, an all-zero execution summary and a non-empty final
text stating the internal failure. -/
theorem processQuery_never_throws (query : String)
    (decompose : String → Except String QueryDecompositionResult)
    (execute : List SubQuery → Except String (List SubQueryResult))
    (aggregate : String → List SubQueryResult → Except String AggregatedResult)
    (h : ¬ ∃ d rs agg, decompose query = .ok d ∧ execute d.subQueries = .ok rs ∧
          aggregate query rs = .ok agg) :
    (processQuery query decompose execute aggregate).decomposition.subQueries = [] ∧
    (processQuery query decompose execute aggregate).subResults = [] ∧
    (processQuery query decompose execute aggregate).executionSummary = ⟨0, 0, 0, 0⟩ ∧
    (processQuery query decompose execute aggregate).response ≠ "" := by
  rcases hd : decompose query with e | d
  · simp only [processQuery, hd]
    exact ⟨rfl, rfl, rfl, append_ne_empty_left _ _ (by decide)⟩
  · rcases he : execute d.subQueries with e | rs
    · simp only [processQuery, hd, he]
      exact ⟨rfl, rfl, rfl, append_ne_empty_left _ _ (by decide)⟩
    · rcases ha : aggregate query rs with e | agg
      · simp only [processQuery, hd, he, ha]
        exact ⟨rfl, rfl, rfl, append_ne_empty_left _ _ (by decide)⟩
      · exact absurd ⟨d, rs, agg, hd, he, ha⟩ h

/-- C1 witness: a forced rejection at the decomposition stage. -/
theorem processQuery_never_throws_witness :
    (processQuery "q" (fun _ => .error "boom") (fun _ => .ok [])
        (fun _ _ => .ok ⟨"q", "", [], "", ⟨0, 0, 0, 0⟩⟩)).decomposition.subQueries = [] ∧
    (processQuery "q" (fun _ => .error "boom") (fun _ => .ok [])
        (fun _ _ => .ok ⟨"q", "", [], "", ⟨0, 0, 0, 0⟩⟩)).subResults = [] ∧
    (processQuery "q" (fun _ => .error "boom") (fun _ => .ok [])
        (fun _ _ => .ok ⟨"q", "", [], "", ⟨0, 0, 0, 0⟩⟩)).executionSummary = ⟨0, 0, 0, 0⟩ ∧
    (processQuery "q" (fun _ => .error "boom") (fun _ => .ok [])
        (fun _ _ => .ok ⟨"q", "", [], "", ⟨0, 0, 0, 0⟩⟩)).response ≠ "" :=
  processQuery_never_throws "q" _ _ _ (by rintro ⟨d, rs, agg, hd, _, _⟩; simp at hd)

/-- C7: when the decomposition oracle call fails or its output is
unparsable, `decomposeQuery` still returns (it never fails outward) a
single-element decomposition: one knowledge-query sub-request whose text is
the original input verbatim with confidence 0.5, `hasMultipleIntents =
false`, and a non-empty rationale recording the failure. -/
theorem decomposeQuery_failure_fallback (llm : Except String DecompResponse)
    (query : String) (now : ℕ)
    (h : (∃ e, llm = .error e) ∨
         ∃ resp e, llm = .ok resp ∧ parseDecompositionCore resp = .error e) :
    (∃ rsn, (decomposeQuery llm query now).subQueries
        = [⟨"fallback-1", query, QueryType.knowledge_query, 1, mkRat 1 2, rsn⟩]) ∧
    (decomposeQuery llm query now).hasMultipleIntents = false ∧
    (decomposeQuery llm query now).originalQuery = query ∧
    (decomposeQuery llm query now).reasoning ≠ "" := by
  rcases h with ⟨e, he⟩ | ⟨resp, e, hre, hpe⟩
  · subst he
    exact ⟨⟨_, rfl⟩, rfl, rfl, (by decide : "查询分解服务异常，使用降级处理" ≠ "")⟩
  · subst hre
    have heq : decomposeQuery (Except.ok resp) query now = parseDecompositionResult resp query now :=
      rfl
    rw [heq]
    unfold parseDecompositionResult
    rw [hpe]
    exact ⟨⟨_, rfl⟩, rfl, rfl, append_ne_empty_left _ _ (by decide)⟩

/-- C7 witness: a rejected oracle call and an unparsable response. -/
theorem decomposeQuery_failure_fallback_witness :
    (∃ rsn, (decomposeQuery (.ok DecompResponse.unparsable) "orig" 7).subQueries
        = [⟨"fallback-1", "orig", QueryType.knowledge_query, 1, mkRat 1 2, rsn⟩]) ∧
    (decomposeQuery (.ok DecompResponse.unparsable) "orig" 7).hasMultipleIntents = false ∧
    (decomposeQuery (.ok DecompResponse.unparsable) "orig" 7).originalQuery = "orig" ∧
    (decomposeQuery (.ok DecompResponse.unparsable) "orig" 7).reasoning ≠ "" :=
  decomposeQuery_failure_fallback (.ok DecompResponse.unparsable) "orig" 7
    (Or.inr ⟨DecompResponse.unparsable, _, rfl, rfl⟩)

/-- C10: the decomposer treats every falsy field as absent — a parsed
sub-request whose confidence is exactly 0 is assigned the default 0.8 and a
priority of 0 is replaced by `index + 1` — and every sub-request of any
returned decomposition has confidence in `[0, 1]`. -/
theorem decomposer_falsy_defaults (q : String) (now index : ℕ) (sq : ParsedSubQuery)
    (hc : sq.confidence = some 0) (hp : sq.priority = some 0) :
    (buildSubQuery q now index sq).confidence = mkRat 4 5 ∧
    (buildSubQuery q now index sq).priority = mkRat (index + 1) 1 ∧
    ∀ (llm : Except String DecompResponse) (query : String) (now2 : ℕ),
      ∀ s ∈ (decomposeQuery llm query now2).subQueries,
        0 ≤ s.confidence ∧ s.confidence ≤ 1 := by
  refine ⟨?_, ?_, ?_⟩
  · show mathMax 0 (mathMin 1 (jsOrNum sq.confidence (mkRat 4 5))) = mkRat 4 5
    rw [hc]
    decide
  · show jsOrNum sq.priority (mkRat (index + 1) 1) = mkRat (index + 1) 1
    rw [hp]
    simp [jsOrNum]
  · intro llm query now2 s hs
    rcases llm with e | resp
    · simp only [decomposeQuery, List.mem_singleton] at hs
      subst hs
      exact ⟨(by decide : (0 : ℚ) ≤ mkRat 1 2), (by decide : mkRat 1 2 ≤ (1 : ℚ))⟩
    · have heq : decomposeQuery (Except.ok resp) query now2
          = parseDecompositionResult resp query now2 := rfl
      rw [heq] at hs
      unfold parseDecompositionResult at hs
      rcases hc2 : parseDecompositionCore resp with e | ⟨hmi, l, r⟩
      · rw [hc2] at hs
        simp only [List.mem_singleton] at hs
        subst hs
        exact ⟨(by decide : (0 : ℚ) ≤ mkRat 1 2), (by decide : mkRat 1 2 ≤ (1 : ℚ))⟩
      · rw [hc2] at hs
        simp only at hs
        have hs2 := (List.mem_insertionSort priorityLE).mp hs
        rcases List.mem_map.mp hs2 with ⟨p, _, rfl⟩
        exact clamp_mem_unit _

/-- C10 witness: a parsed sub-request with confidence 0 and priority 0. -/
theorem decomposer_falsy_defaults_witness :
    (buildSubQuery "orig" 5 3
        ⟨some "id", some "q", some QueryType.knowledge_query, some 0, some 0, some "r"⟩).confidence
      = mkRat 4 5 ∧
    (buildSubQuery "orig" 5 3
        ⟨some "id", some "q", some QueryType.knowledge_query, some 0, some 0, some "r"⟩).priority
      = mkRat 4 1 :=
  ⟨(decomposer_falsy_defaults "orig" 5 3 _ rfl rfl).1,
   (decomposer_falsy_defaults "orig" 5 3 _ rfl rfl).2.1⟩

/-- C4 counterexample: an oracle output declaring `hasMultipleIntents = true`
with exactly one sub-query yields a decomposition with `isComposite = true`
and a single SubRequest, refuting the claimed equivalence with "more than
one SubRequest was produced". -/
theorem isComposite_counterexample :
    (decomposeQuery (.ok (.parsed ⟨some true,
        some [⟨some "s1", some "q", some QueryType.knowledge_query, some 1, some (mkRat 9 10),
          some "r"⟩],
        some "rs"⟩)) "orig" 0).hasMultipleIntents = true ∧
    (decomposeQuery (.ok (.parsed ⟨some true,
        some [⟨some "s1", some "q", some QueryType.knowledge_query, some 1, some (mkRat 9 10),
          some "r"⟩],
        some "rs"⟩)) "orig" 0).subQueries.length = 1 := by decide

/-- C4 amended: `hasMultipleIntents` is copied verbatim from the oracle's
field whenever the response passes validation, and is `false` with exactly
one SubRequest on every failure path; it is not derived from the number of
SubRequests produced. -/
theorem isComposite_echoes_oracle (llm : Except String DecompResponse)
    (query : String) (now : ℕ) :
    (∀ b l r, llm = .ok (.parsed ⟨some b, some l, r⟩) →
      (decomposeQuery llm query now).hasMultipleIntents = b) ∧
    ((∀ b l r, llm ≠ .ok (.parsed ⟨some b, some l, r⟩)) →
      (decomposeQuery llm query now).hasMultipleIntents = false ∧
      (decomposeQuery llm query now).subQueries.length = 1) := by
  constructor
  · rintro b l r rfl
    rfl
  · intro hne
    rcases llm with e | resp
    · exact ⟨rfl, rfl⟩
    rcases resp with _ | ⟨hmi, sqs, r⟩
    · exact ⟨rfl, rfl⟩
    rcases hmi with _ | b
    · exact ⟨rfl, rfl⟩
    rcases sqs with _ | l
    · exact ⟨rfl, rfl⟩
    · exact absurd rfl (hne b l r)

/-- C4 witness: a validated response with `hasMultipleIntents = false`. -/
theorem isComposite_echoes_oracle_witness :
    (decomposeQuery (.ok (.parsed ⟨some false, some [], some "r"⟩)) "q" 0).hasMultipleIntents
      = false :=
  (isComposite_echoes_oracle (.ok (.parsed ⟨some false, some [], some "r"⟩)) "q" 0).1
    false [] (some "r") rfl

/-- C3 counterexample: on a response with no parseable JSON object,
`classify` does not fail — the malformed response is coerced into a valid
default classification result. -/
theorem classify_malformed_counterexample :
    classify (.ok ClsResponse.unparsable)
      = .ok ⟨DatasetKey.price_index_statistics, mkRat 3 10,
          "LLM响应解析失败，使用默认数据集: LLM响应中未找到有效的JSON格式"⟩ := by rfl

/-- C3 amended: a malformed or out-of-range classifier response is caught
inside `parseClassificationResult` and coerced to the default classification
(default dataset, confidence 0.3, rationale recording the parse failure);
`classify` fails only when the underlying oracle call itself errors. -/
theorem classify_malformed_coerced (resp : ClsResponse) (e : String)
    (h : parseClassificationCore resp = .error e) :
    classify (.ok resp) = .ok ⟨DatasetKey.price_index_statistics, mkRat 3 10,
        "LLM响应解析失败，使用默认数据集: " ++ e⟩ ∧
    ∀ msg, classify (.error msg) = .error ("LLM分类服务异常: " ++ msg) := by
  constructor
  · show Except.ok (parseClassificationResult resp) = _
    unfold parseClassificationResult
    rw [h]
  · intro msg
    rfl

/-- C3 witness: the unparsable response. -/
theorem classify_malformed_coerced_witness :
    classify (.ok ClsResponse.unparsable) = .ok ⟨DatasetKey.price_index_statistics, mkRat 3 10,
        "LLM响应解析失败，使用默认数据集: " ++ "LLM响应中未找到有效的JSON格式"⟩ :=
  (classify_malformed_coerced ClsResponse.unparsable "LLM响应中未找到有效的JSON格式" rfl).1

/-- C2 counterexample: with two sub-requests whose priorities are out of
order, `executeSubQueries` returns the results in priority order, so the
first result corresponds to the second input sub-request, refuting
input-order preservation. -/
theorem executeSubQueries_order_counterexample :
    (executeSubQueries (fun q => .ok q) (fun q => .ok q) (fun q => .ok q) (fun _ => 0)
        [⟨"a", "qa", QueryType.knowledge_query, 2, 1, "r"⟩,
         ⟨"b", "qb", QueryType.knowledge_query, 1, 1, "r"⟩]).map (fun r => r.id)
      = ["b", "a"] ∧
    (executeSubQueries (fun q => .ok q) (fun q => .ok q) (fun q => .ok q) (fun _ => 0)
        [⟨"a", "qa", QueryType.knowledge_query, 2, 1, "r"⟩,
         ⟨"b", "qb", QueryType.knowledge_query, 1, 1, "r"⟩]).map (fun r => r.id)
      ≠ ["a", "b"] := by decide

/-- C2 amended: `executeSubQueries` returns exactly as many results as
inputs, and the i-th result carries the id, kind and text of the i-th
element of the input stably sorted by priority; input order is preserved
exactly when the input is already sorted by priority (which every
decomposition outcome is). -/
theorem executeSubQueries_priority_order (hK hM hW : String → Except String String)
    (elapsed : SubQuery → ℕ) (l : List SubQuery) :
    (executeSubQueries hK hM hW elapsed l).length = l.length ∧
    (executeSubQueries hK hM hW elapsed l).map (fun r => (r.id, r.query, r.type))
      = (sortByPriority l).map (fun sq => (sq.id, sq.query, sq.type)) ∧
    (l.Sorted priorityLE →
      (executeSubQueries hK hM hW elapsed l).map (fun r => (r.id, r.query, r.type))
        = l.map (fun sq => (sq.id, sq.query, sq.type))) := by
  have hmap : (executeSubQueries hK hM hW elapsed l).map (fun r => (r.id, r.query, r.type))
      = (sortByPriority l).map (fun sq => (sq.id, sq.query, sq.type)) := by
    rw [executeSubQueries_eq, List.map_map]
    apply List.map_congr_left
    intro sq _
    obtain ⟨h1, h2, h3, _⟩ := executeSubQuery_fields hK hM hW (elapsed sq) sq
    simp [Function.comp, h1, h2, h3]
  refine ⟨?_, hmap, ?_⟩
  · rw [executeSubQueries_eq, List.length_map]
    exact (List.perm_insertionSort priorityLE l).length_eq
  · intro hsorted
    rw [hmap]
    unfold sortByPriority
    rw [hsorted.insertionSort_eq]

/-- C2 amended witness: a concrete already-sorted input. -/
theorem executeSubQueries_priority_order_witness :
    (executeSubQueries (fun q => .ok q) (fun q => .ok q) (fun q => .ok q) (fun _ => 0)
        [⟨"a", "qa", QueryType.knowledge_query, 1, 1, "r"⟩,
         ⟨"b", "qb", QueryType.knowledge_query, 2, 1, "r"⟩]).length = 2 ∧
    (executeSubQueries (fun q => .ok q) (fun q => .ok q) (fun q => .ok q) (fun _ => 0)
        [⟨"a", "qa", QueryType.knowledge_query, 1, 1, "r"⟩,
         ⟨"b", "qb", QueryType.knowledge_query, 2, 1, "r"⟩]).map (fun r => (r.id, r.query, r.type))
      = [("a", "qa", QueryType.knowledge_query), ("b", "qb", QueryType.knowledge_query)] := by
  obtain ⟨h1, _, h3⟩ := executeSubQueries_priority_order (fun q => .ok q) (fun q => .ok q)
    (fun q => .ok q) (fun _ => 0)
    [⟨"a", "qa", QueryType.knowledge_query, 1, 1, "r"⟩,
     ⟨"b", "qb", QueryType.knowledge_query, 2, 1, "r"⟩]
  exact ⟨h1, (h3 (by decide)).trans (by decide)⟩

/-- C5: if exactly one sub-request's handler throws while every other
handler succeeds, the returned result set contains exactly one failed entry
— with empty output and the failure reason recorded — and every other entry
succeeded with its handler output unaffected; no sibling task nor the
overall call is aborted. -/
theorem executeSubQueries_failure_isolation (hK hM hW : String → Except String String)
    (elapsed : SubQuery → ℕ) (l1 l2 : List SubQuery) (bad : SubQuery) (e : String)
    (hbad : dispatchHandler hK hM hW bad = .error e)
    (hok : ∀ sq ∈ l1 ++ l2, (dispatchHandler hK hM hW sq).isOk = true) :
    ((executeSubQueries hK hM hW elapsed (l1 ++ bad :: l2)).filter
        (fun r => !r.success)).length = 1 ∧
    ∀ r ∈ executeSubQueries hK hM hW elapsed (l1 ++ bad :: l2),
      (r.success = false → r.response = "" ∧ r.error = some e) ∧
      (r.success = true → ∃ sq ∈ l1 ++ l2, r.id = sq.id ∧ r.query = sq.query ∧
        r.type = sq.type ∧ dispatchHandler hK hM hW sq = .ok r.response) := by
  constructor
  · rw [executeSubQueries_eq, ← List.countP_eq_length_filter, List.countP_map]
    have hpt : ∀ sq : SubQuery,
        ((fun r => !r.success) ∘ (fun sq => executeSubQuery hK hM hW (elapsed sq) sq)) sq
          = !(dispatchHandler hK hM hW sq).isOk := by
      intro sq
      obtain ⟨_, _, _, h4⟩ := executeSubQuery_fields hK hM hW (elapsed sq) sq
      simp [Function.comp, h4]
    rw [List.countP_congr (fun a _ => by rw [hpt a])]
    unfold sortByPriority
    rw [(List.perm_insertionSort priorityLE (l1 ++ bad :: l2)).countP_eq,
      List.countP_append, List.countP_cons]
    have h1 : l1.countP (fun sq => !(dispatchHandler hK hM hW sq).isOk) = 0 := by
      apply List.countP_eq_zero.mpr
      intro sq hsq
      rw [hok sq (List.mem_append_left _ hsq)]
      simp
    have h2 : l2.countP (fun sq => !(dispatchHandler hK hM hW sq).isOk) = 0 := by
      apply List.countP_eq_zero.mpr
      intro sq hsq
      rw [hok sq (List.mem_append_right _ hsq)]
      simp
    rw [h1, h2, hbad]
    simp [Except.isOk, Except.toBool]
  · intro r hr
    rw [executeSubQueries_eq] at hr
    rcases List.mem_map.mp hr with ⟨sq, hsq, rfl⟩
    have hsqL : sq ∈ l1 ++ bad :: l2 := (List.mem_insertionSort priorityLE).mp hsq
    rcases hd : dispatchHandler hK hM hW sq with e' | out
    · constructor
      · intro _
        have hsqeq : sq = bad := by
          rcases List.mem_append.mp hsqL with hm1 | hm2
          · have := hok sq (List.mem_append_left _ hm1)
            rw [hd] at this
            simp [Except.isOk, Except.toBool] at this
          · rcases List.mem_cons.mp hm2 with heq | hm3
            · exact heq
            · have := hok sq (List.mem_append_right _ hm3)
              rw [hd] at this
              simp [Except.isOk, Except.toBool] at this
        have hee : e' = e := by
          rw [hsqeq, hbad] at hd
          exact (Except.error.injEq _ _).mp hd.symm
        subst hee
        constructor
        · simp [executeSubQuery, hd]
        · simp [executeSubQuery, hd]
      · intro hcontra
        simp [executeSubQuery, hd] at hcontra
    · constructor
      · intro hcontra
        simp [executeSubQuery, hd] at hcontra
      · intro _
        have hsqL2 : sq ∈ l1 ++ l2 := by
          rcases List.mem_append.mp hsqL with hm1 | hm2
          · exact List.mem_append_left _ hm1
          · rcases List.mem_cons.mp hm2 with heq | hm3
            · rw [heq, hbad] at hd
              cases hd
            · exact List.mem_append_right _ hm3
        refine ⟨sq, hsqL2, ?_, ?_, ?_, ?_⟩ <;> simp [executeSubQuery, hd]

/-- C5 witness: one knowledge sub-request with a succeeding handler next to
one calculation sub-request whose handler always throws. -/
theorem executeSubQueries_failure_isolation_witness :
    ((executeSubQueries (fun q => .ok ("ans:" ++ q)) (fun _ => .error "boom") (fun q => .ok q)
        (fun _ => 0)
        ([⟨"a", "qa", QueryType.knowledge_query, 1, 1, "r"⟩] ++
          ⟨"b", "qb", QueryType.math_calculation, 2, 1, "r"⟩ :: [])).filter
        (fun r => !r.success)).length = 1 ∧
    ∀ r ∈ executeSubQueries (fun q => .ok ("ans:" ++ q)) (fun _ => .error "boom")
        (fun q => .ok q) (fun _ => 0)
        ([⟨"a", "qa", QueryType.knowledge_query, 1, 1, "r"⟩] ++
          ⟨"b", "qb", QueryType.math_calculation, 2, 1, "r"⟩ :: []),
      (r.success = false → r.response = "" ∧ r.error = some "boom") ∧
      (r.success = true → ∃ sq ∈ [⟨"a", "qa", QueryType.knowledge_query, 1, 1, "r"⟩] ++
          ([] : List SubQuery), r.id = sq.id ∧ r.query = sq.query ∧
        r.type = sq.type ∧ dispatchHandler (fun q => Except.ok ("ans:" ++ q))
          (fun _ => Except.error "boom") (fun q => Except.ok q) sq = .ok r.response) :=
  executeSubQueries_failure_isolation (fun q => .ok ("ans:" ++ q)) (fun _ => .error "boom")
    (fun q => .ok q) (fun _ => 0) [⟨"a", "qa", QueryType.knowledge_query, 1, 1, "r"⟩] []
    ⟨"b", "qb", QueryType.math_calculation, 2, 1, "r"⟩ "boom" rfl (by decide)

/-- The fallback aggregation text is never empty. -/
theorem simpleFallback_ne_empty (rs : List SubQueryResult) :
    simpleFallbackAggregation rs ≠ "" := by
  unfold simpleFallbackAggregation
  by_cases h : fallbackWithFailures
      (fallbackSuccessText (rs.filter (fun r => r.success)))
      (rs.filter (fun r => !r.success)) = ""
  · rw [if_pos h]
    decide
  · rw [if_neg h]
    exact h

/-- Appending the failure line to the empty success text yields the line
alone. -/
theorem fallbackWithFailures_of_empty (f : List SubQueryResult) (hf : f ≠ []) :
    fallbackWithFailures "" f
      = "❌ 部分查询失败: " ++ String.intercalate ", " (f.map (fun r => r.error.getD "")) := by
  unfold fallbackWithFailures
  rw [if_pos (List.length_pos.mpr hf)]
  rfl

/-- C8 counterexample: on a multi-result set with zero successes and some
failures, the oracle-failure fallback returns the partial-failure line, not
the fixed all-sub-queries-failed message claimed for the zero-success case. -/
theorem aggregate_zero_success_counterexample :
    (aggregateResults (.error "oracle down") "q"
        [⟨"1", "q1", QueryType.knowledge_query, "", false, some "e1", some 0⟩,
         ⟨"2", "q2", QueryType.knowledge_query, "", false, some "e2", some 0⟩]).finalResponse
      = "❌ 部分查询失败: e1, e2" ∧
    (aggregateResults (.error "oracle down") "q"
        [⟨"1", "q1", QueryType.knowledge_query, "", false, some "e1", some 0⟩,
         ⟨"2", "q2", QueryType.knowledge_query, "", false, some "e2", some 0⟩]).finalResponse
      ≠ "❌ 所有查询都失败了" := by decide

/-- C8 amended: on more than one sub-result, when the synthesis oracle call
fails or returns unparsable output, `finalText` comes from the deterministic
fallback: the successful outputs joined with blank-line separators, a
failure-summary line listing the failure reasons appended when failures
exist; with zero successful results and at least one failure the fallback is
the failure-summary line alone, and the fixed all-failed message appears
only when the assembled text is empty; `finalText` is non-empty in every
case. -/
theorem aggregateResults_oracle_fallback (llm : Except String AggResponse)
    (e originalQuery : String) (rs : List SubQueryResult) (h : rs.length ≠ 1)
    (hfail : llm = .error e ∨
      ∃ resp, llm = .ok resp ∧ parseAggregationResult resp = .error e) :
    (aggregateResults llm originalQuery rs).finalResponse
      = simpleFallbackAggregation rs ∧
    (aggregateResults llm originalQuery rs).aggregationReasoning
      = "LLM聚合失败，使用简单拼接: " ++ e ∧
    (aggregateResults llm originalQuery rs).finalResponse ≠ "" ∧
    (rs.filter (fun r => r.success) = [] → rs.filter (fun r => !r.success) ≠ [] →
      simpleFallbackAggregation rs = "❌ 部分查询失败: "
        ++ String.intercalate ", " ((rs.filter (fun r => !r.success)).map
            (fun r => r.error.getD ""))) ∧
    (rs.filter (fun r => !r.success) = [] → 1 < (rs.filter (fun r => r.success)).length →
      simpleFallbackAggregation rs =
        (if String.intercalate "\n\n" ((rs.filter (fun r => r.success)).map
              (fun r => r.response)) = ""
         then "❌ 所有查询都失败了"
         else String.intercalate "\n\n" ((rs.filter (fun r => r.success)).map
              (fun r => r.response)))) := by
  have hA : aggregateWithLLM llm = .error e := by
    rcases hfail with rfl | ⟨resp, rfl, hp⟩
    · rfl
    · exact hp
  have hfb : (aggregateResults llm originalQuery rs).finalResponse
        = simpleFallbackAggregation rs ∧
      (aggregateResults llm originalQuery rs).aggregationReasoning
        = "LLM聚合失败，使用简单拼接: " ++ e := by
    rcases rs with _ | ⟨a, _ | ⟨b, t⟩⟩
    · simp [aggregateResults, hA]
    · exact absurd rfl h
    · simp [aggregateResults, hA]
  refine ⟨hfb.1, hfb.2, hfb.1 ▸ simpleFallback_ne_empty rs, ?_, ?_⟩
  · intro hs hf
    unfold simpleFallbackAggregation
    rw [hs]
    rw [show fallbackSuccessText [] = "" from rfl]
    rw [fallbackWithFailures_of_empty _ hf]
    rw [if_neg (append_ne_empty_left _ _ (by decide))]
  · intro hf hs
    unfold simpleFallbackAggregation fallbackWithFailures
    rw [hf]
    rw [if_neg (by simp : ¬ 0 < ([] : List SubQueryResult).length)]
    unfold fallbackSuccessText
    rw [if_pos (lt_of_le_of_lt (Nat.zero_le 1) hs),
      if_neg (by omega : ¬ (rs.filter (fun r => r.success)).length = 1)]

/-- C8 witness: two failed results and an unparsable synthesis response. -/
theorem aggregateResults_oracle_fallback_witness :
    (aggregateResults (.ok AggResponse.unparsable) "q"
        [⟨"1", "q1", QueryType.knowledge_query, "", false, some "e1", some 0⟩,
         ⟨"2", "q2", QueryType.knowledge_query, "", false, some "e2", some 0⟩]).finalResponse
      = simpleFallbackAggregation
          [⟨"1", "q1", QueryType.knowledge_query, "", false, some "e1", some 0⟩,
           ⟨"2", "q2", QueryType.knowledge_query, "", false, some "e2", some 0⟩] ∧
    (aggregateResults (.ok AggResponse.unparsable) "q"
        [⟨"1", "q1", QueryType.knowledge_query, "", false, some "e1", some 0⟩,
         ⟨"2", "q2", QueryType.knowledge_query, "", false, some "e2", some 0⟩]).finalResponse
      ≠ "" :=
  ⟨(aggregateResults_oracle_fallback (.ok AggResponse.unparsable)
      "解析聚合结果失败: LLM响应中未找到有效的JSON格式" "q" _ (by decide)
      (Or.inr ⟨AggResponse.unparsable, rfl, rfl⟩)).1,
   (aggregateResults_oracle_fallback (.ok AggResponse.unparsable)
      "解析聚合结果失败: LLM响应中未找到有效的JSON格式" "q" _ (by decide)
      (Or.inr ⟨AggResponse.unparsable, rfl, rfl⟩)).2.2.1⟩

/-- C9 counterexample: with a query matching no keywords and a successful
classifier result, the selected reasoning is the classifier rationale
prefixed with a marker, not the rationale verbatim. -/
theorem router_rationale_counterexample :
    (selectBestDataset "hello"
        (.ok (.parsed ⟨some "machine_learning", some (mkRat 7 10), some "R"⟩))).reasoning
      ≠ "R" ∧
    selectBestDataset "hello"
        (.ok (.parsed ⟨some "machine_learning", some (mkRat 7 10), some "R"⟩))
      = ⟨DatasetKey.machine_learning, mkRat 7 10, "LLM智能分类: R"⟩ := by decide

/-- C9 amended: the domain-selection ladder of `routeQuery`, in order with
first success winning: a valid caller-supplied dataset hint is used with
confidence 0.9; otherwise the keyword-score argmax is used when it exceeds
0.6, with confidence `min(score, 0.95)`; otherwise the oracle classifier's
dataset and confidence are accepted verbatim while its rationale is prefixed
with a marker; and if the classifier call fails, the default dataset is used
with confidence 0.4. -/
theorem routeQuery_domain_ladder (query : String) (hint : Option String)
    (llm : Except String ClsResponse) :
    (∀ retrieve, routeQuery query hint llm retrieve =
      ⟨executeQuery retrieve query (routeSelection query hint llm).dataset,
       datasetDescription (routeSelection query hint llm).dataset,
       (routeSelection query hint llm).reasoning,
       (routeSelection query hint llm).confidence⟩) ∧
    (∀ s ds, hint = some s → datasetOfKey s = some ds →
      routeSelection query hint llm
        = ⟨ds, mkRat 9 10, "Master Agent 建议使用 " ++ s ++ " 数据集"⟩) ∧
    ((hint = none ∨ ∃ s, hint = some s ∧ datasetOfKey s = none) →
      routeSelection query hint llm = selectBestDataset query llm) ∧
    (mkRat 6 10 < mathMax (calculateKeywordScore (toLowerStr query) mlKeywords)
        (calculateKeywordScore (toLowerStr query) priceIndexKeywords) →
      selectBestDataset query llm =
        ⟨(if calculateKeywordScore (toLowerStr query) priceIndexKeywords
              < calculateKeywordScore (toLowerStr query) mlKeywords
           then DatasetKey.machine_learning else DatasetKey.price_index_statistics),
         mathMin (mathMax (calculateKeywordScore (toLowerStr query) mlKeywords)
             (calculateKeywordScore (toLowerStr query) priceIndexKeywords)) (mkRat 95 100),
         "关键词匹配 (得分: "
           ++ scoreText (mathMax (calculateKeywordScore (toLowerStr query) mlKeywords)
               (calculateKeywordScore (toLowerStr query) priceIndexKeywords)) ++ ")"⟩) ∧
    (¬ mkRat 6 10 < mathMax (calculateKeywordScore (toLowerStr query) mlKeywords)
        (calculateKeywordScore (toLowerStr query) priceIndexKeywords) →
      (∀ cr, classify llm = .ok cr →
        selectBestDataset query llm
          = ⟨cr.dataset, cr.confidence, "LLM智能分类: " ++ cr.reasoning⟩) ∧
      (∀ msg, classify llm = .error msg →
        selectBestDataset query llm = ⟨DatasetKey.price_index_statistics, mkRat 4 10,
          "LLM服务异常，使用默认数据集: " ++ msg⟩)) := by
  refine ⟨fun retrieve => rfl, ?_, ?_, ?_, ?_⟩
  · rintro s ds rfl hds
    have hsne : s ≠ "" := by
      intro h0
      rw [h0] at hds
      simp [datasetOfKey] at hds
    simp only [routeSelection]
    rw [if_pos hsne, hds]
  · rintro (rfl | ⟨s, rfl, hds⟩)
    · rfl
    · simp only [routeSelection]
      by_cases hse : s = ""
      · rw [if_neg (by simp [hse])]
      · rw [if_pos hse, hds]
  · intro h6
    simp only [selectBestDataset]
    rw [if_pos h6]
  · intro h6
    constructor
    · intro cr hcl
      simp only [selectBestDataset]
      rw [if_neg h6, hcl]
    · intro msg hcl
      simp only [selectBestDataset]
      rw [if_neg h6, hcl]

/-- C9 witness: a valid caller-supplied hint wins the ladder. -/
theorem routeQuery_domain_ladder_witness :
    routeSelection "hello" (some "machine_learning") (.error "down")
      = ⟨DatasetKey.machine_learning, mkRat 9 10,
          "Master Agent 建议使用 " ++ "machine_learning" ++ " 数据集"⟩ :=
  (routeQuery_domain_ladder "hello" (some "machine_learning") (.error "down")).2.1
    "machine_learning" DatasetKey.machine_learning rfl rfl

end AgenticRag
